import Mathlib

/-!
Shallow embedding of `src/App.tsx` of the webp-converter-online repository.

The repository is a single React component.  Its state is the six `useState`
hooks of `App` (lines 7-12); the operations are the event handlers
`processFile`, `handleImageSelect`, `handleDrop`, the drag handlers,
`convertImage` and `downloadImage`.  Browser platform services
(`FileReader.readAsDataURL`, image decoding via `img.onload`,
`canvas.getContext('2d')`, `canvas.toDataURL`) are modelled as an explicit
environment of deterministic functions.  `convertImage` is given a trace
semantics: the list of states produced by each `set...` call it performs, in
order, together with whether the suspended flow ever resolves (the `onload`
callback fires only when decoding succeeds, so a decode failure leaves the
promise pending forever and the `finally` block never runs).
-/

namespace WebpConverter

/-- The `ImageFormat` union type of `App.tsx` line 4: `'jpeg' | 'jpg' | 'png'`. -/
inductive ImageFormat
  | jpeg
  | jpg
  | png
deriving DecidableEq, Repr

/-- The literal string token of a format, as interpolated into template
literals in `convertImage` and `downloadImage`. -/
def formatToken : ImageFormat → String
  | .jpeg => "jpeg"
  | .jpg => "jpg"
  | .png => "png"

/-- A decoded bitmap: the `img` element after `onload`, with its natural
width, height and pixel contents. -/
structure Bitmap where
  width : Nat
  height : Nat
  pixels : List Nat
deriving DecidableEq, Repr

/-- The component state: the six `useState` hooks of `App` (lines 7-12).
Images are data-URL strings, as produced by `FileReader.readAsDataURL` and
`canvas.toDataURL`. -/
structure AppState where
  selectedImage : Option String
  convertedImage : Option String
  isLoading : Bool
  selectedFormat : ImageFormat
  quality : Nat
  isDragging : Bool
deriving DecidableEq, Repr

/-- The initial state: the arguments of the `useState` calls (lines 7-12). -/
def initialState : AppState :=
  { selectedImage := none
    convertedImage := none
    isLoading := false
    selectedFormat := ImageFormat.jpeg
    quality := 90
    isDragging := false }

/-- Browser platform services used by the component, as deterministic
functions.  `readAsDataURL` returns `none` when the read never completes
(`reader.onload` never fires); `decodeImage` returns `none` when the bytes
are not a decodable image (`img.onload` never fires); `getContext2d` returns
`none` when a 2d context cannot be acquired for a canvas of the given
dimensions; `toDataURL` re-encodes the drawn pixel contents at a MIME type
string and a fractional quality. -/
structure Env where
  readAsDataURL : String → Option String
  decodeImage : String → Option Bitmap
  getContext2d : Nat → Nat → Option Unit
  toDataURL : Bitmap → String → ℚ → String

/-- `processFile` (lines 22-29): read the file into a data URL; on load,
set the source image to the result and clear the converted image.  A read
that never completes leaves the state untouched. -/
def processFile (env : Env) (file : String) (s : AppState) : AppState :=
  match env.readAsDataURL file with
  | some dataUrl => { s with selectedImage := some dataUrl, convertedImage := none }
  | none => s

/-- `handleImageSelect` (lines 15-20): take `event.target.files?.[0]` and
process it if present. -/
def handleImageSelect (env : Env) (files : List String) (s : AppState) : AppState :=
  match files with
  | [] => s
  | file :: _ => processFile env file s

/-- `handleDragEnter` (lines 31-35). -/
def handleDragEnter (s : AppState) : AppState :=
  { s with isDragging := true }

/-- `handleDragLeave` (lines 37-41). -/
def handleDragLeave (s : AppState) : AppState :=
  { s with isDragging := false }

/-- `handleDragOver` (lines 43-46): only prevents default, no state change. -/
def handleDragOver (s : AppState) : AppState :=
  s

/-- `handleDrop` (lines 48-57): clear the drag flag, then process the first
dropped file if any. -/
def handleDrop (env : Env) (files : List String) (s : AppState) : AppState :=
  let s1 := { s with isDragging := false }
  match files with
  | [] => s1
  | file :: _ => processFile env file s1

/-- The `quality / 100` scaling in `convertImage` line 76, from the 1-100
user range to the encoder's fractional range. -/
def qualityFraction (quality : Nat) : ℚ :=
  (quality : ℚ) / 100

/-- The observable run of one `convertImage` invocation: `trace` is the list
of states after each `set...` call it performs, in order; `resolved` records
whether the awaited promise ever resolves (so whether the `finally` block
runs); `final` is the last state the run leaves behind. -/
structure ConvertRun where
  trace : List AppState
  resolved : Bool
  final : AppState
deriving DecidableEq, Repr

/-- `convertImage` (lines 59-87).  No source: return before any state
change.  Otherwise set the busy flag, then decode; if decoding fails the
`onload` callback never fires, the promise stays pending and the `finally`
clearing the busy flag never runs.  On decode success a canvas of the exact
bitmap dimensions is created; if its 2d context is unavailable the guarded
block is skipped and the run resolves with no converted image; otherwise the
bitmap is drawn and re-encoded via `toDataURL` at MIME
`image/<selectedFormat>` and quality `quality / 100`, the result stored as
the converted image, and the busy flag cleared by the `finally` block. -/
def convertImage (env : Env) (s : AppState) : ConvertRun :=
  match s.selectedImage with
  | none => { trace := [], resolved := true, final := s }
  | some src =>
    let s1 := { s with isLoading := true }
    match env.decodeImage src with
    | none => { trace := [s1], resolved := false, final := s1 }
    | some img =>
      match env.getContext2d img.width img.height with
      | none =>
        let s2 := { s1 with isLoading := false }
        { trace := [s1, s2], resolved := true, final := s2 }
      | some _ =>
        let dataUrl :=
          env.toDataURL img ("image/" ++ formatToken s.selectedFormat)
            (qualityFraction s.quality)
        let s2 := { s1 with convertedImage := some dataUrl }
        let s3 := { s2 with isLoading := false }
        { trace := [s1, s2, s3], resolved := true, final := s3 }

/-- A download initiated by `downloadImage`: the anchor's `href` and
`download` attributes (lines 92-94). -/
structure Download where
  href : String
  filename : String
deriving DecidableEq, Repr

/-- `downloadImage` (lines 89-98): no converted image is a silent no-op;
otherwise initiate a download of the converted image under
`converted-image.<selectedFormat>`, using the currently selected format.
No component state is changed. -/
def downloadImage (s : AppState) : AppState × Option Download :=
  match s.convertedImage with
  | none => (s, none)
  | some url =>
      (s, some { href := url
                 filename := "converted-image." ++ formatToken s.selectedFormat })

/-- The format button `onClick` handler (line 150). -/
def setSelectedFormat (f : ImageFormat) (s : AppState) : AppState :=
  { s with selectedFormat := f }

/-- The quality slider `onChange` handler (line 171). -/
def setQuality (q : Nat) (s : AppState) : AppState :=
  { s with quality := q }

/-- A concrete test environment: every string decodes to a 1 x 1 bitmap, a
2d context is always available, and encoding embeds the MIME type in the
data URL as browsers do. -/
def testEnv : Env :=
  { readAsDataURL := fun file => some ("data:image/webp;base64," ++ file)
    decodeImage := fun _ => some { width := 1, height := 1, pixels := [0] }
    getContext2d := fun _ _ => some ()
    toDataURL := fun _ mime _ => "data:" ++ mime ++ ";base64,PAYLOAD" }

/-- `testEnv` with image decoding always failing. -/
def failingDecodeEnv : Env :=
  { testEnv with decodeImage := fun _ => none }

/-- `testEnv` with 2d-context acquisition always failing. -/
def noContextEnv : Env :=
  { testEnv with getContext2d := fun _ _ => none }

/-- A state holding a source image, with the default settings. -/
def stateWithSource : AppState :=
  { initialState with selectedImage := some "data:image/webp;base64,AAAA" }

/-- C9: in the initial state, before any user interaction, the source image
is absent, the converted image is absent, the busy flag is false, the
drag-hover flag is false, the selected format is `jpeg`, and the quality is
90. -/
theorem c9_initial_state :
    initialState.selectedImage = none ∧
    initialState.convertedImage = none ∧
    initialState.isLoading = false ∧
    initialState.isDragging = false ∧
    initialState.selectedFormat = ImageFormat.jpeg ∧
    initialState.quality = 90 :=
  ⟨rfl, rfl, rfl, rfl, rfl, rfl⟩

/-- C6: invoking conversion when no source image is present performs no
state update at all (empty trace, so in particular the busy flag is never
set to true) and leaves the state unchanged. -/
theorem c6_convert_no_source (env : Env) (s : AppState)
    (h : s.selectedImage = none) :
    (convertImage env s).trace = [] ∧ (convertImage env s).final = s := by
  simp [convertImage, h]

/-- C6 witness: the no-source theorem instantiated at the initial state. -/
theorem c6_convert_no_source_witness :
    (convertImage testEnv initialState).trace = [] ∧
    (convertImage testEnv initialState).final = initialState :=
  c6_convert_no_source testEnv initialState rfl

/-- C2: when decoding the source image fails, the suspended conversion never
resolves, and every state it ever produced has the busy flag set to true —
no step of that conversion ever clears it. -/
theorem c2_decode_failure_never_clears_busy (env : Env) (s : AppState)
    (src : String) (hsrc : s.selectedImage = some src)
    (hdec : env.decodeImage src = none) :
    (convertImage env s).resolved = false ∧
    ∀ t ∈ (convertImage env s).trace, t.isLoading = true := by
  simp [convertImage, hsrc, hdec]

/-- C2 witness: the decode-failure theorem instantiated at a state with a
source image and an environment whose decoder always fails. -/
theorem c2_decode_failure_never_clears_busy_witness :
    (convertImage failingDecodeEnv stateWithSource).resolved = false ∧
    ∀ t ∈ (convertImage failingDecodeEnv stateWithSource).trace,
      t.isLoading = true :=
  c2_decode_failure_never_clears_busy failingDecodeEnv stateWithSource
    "data:image/webp;base64,AAAA" rfl rfl

/-- C3: a completed acquisition — whether via the file picker or via drop —
replaces the source image with the newly read data URL and sets the
converted image to absent, regardless of the prior state. -/
theorem c3_acquisition_clears_converted (env : Env) (file dataUrl : String)
    (rest : List String) (s : AppState)
    (hread : env.readAsDataURL file = some dataUrl) :
    (handleImageSelect env (file :: rest) s).selectedImage = some dataUrl ∧
    (handleImageSelect env (file :: rest) s).convertedImage = none ∧
    (handleDrop env (file :: rest) s).selectedImage = some dataUrl ∧
    (handleDrop env (file :: rest) s).convertedImage = none := by
  simp [handleImageSelect, handleDrop, processFile, hread]

/-- C3 witness: acquisition in the test environment, starting from a state
that already holds both a source and a converted image. -/
theorem c3_acquisition_clears_converted_witness :
    (handleImageSelect testEnv ["F"]
        { stateWithSource with convertedImage := some "old" }).selectedImage
      = some "data:image/webp;base64,F" ∧
    (handleImageSelect testEnv ["F"]
        { stateWithSource with convertedImage := some "old" }).convertedImage
      = none ∧
    (handleDrop testEnv ["F"]
        { stateWithSource with convertedImage := some "old" }).selectedImage
      = some "data:image/webp;base64,F" ∧
    (handleDrop testEnv ["F"]
        { stateWithSource with convertedImage := some "old" }).convertedImage
      = none :=
  c3_acquisition_clears_converted testEnv "F" "data:image/webp;base64,F" []
    { stateWithSource with convertedImage := some "old" } rfl

/-- C4: the fractional quality factor passed to the encoder is exactly
`Q / 100` as a rational; `Q = 1` maps to `0.01`, `Q = 100` maps to `1`, the
mapping is linear, and on the reachable range `[1, 100]` it stays within
`[0.01, 1]`. -/
theorem c4_quality_mapping (q : Nat) (h1 : 1 ≤ q) (h2 : q ≤ 100) :
    qualityFraction q = (q : ℚ) / 100 ∧
    qualityFraction 1 = 1 / 100 ∧
    qualityFraction 100 = 1 ∧
    (∀ a b : Nat, qualityFraction (a + b) = qualityFraction a + qualityFraction b) ∧
    1 / 100 ≤ qualityFraction q ∧ qualityFraction q ≤ 1 := by
  refine ⟨rfl, by norm_num [qualityFraction], by norm_num [qualityFraction],
    fun a b => by push_cast [qualityFraction]; ring, ?_, ?_⟩
  · unfold qualityFraction
    gcongr
    exact_mod_cast h1
  · unfold qualityFraction
    rw [div_le_one (by norm_num)]
    exact_mod_cast h2

/-- C4 witness: the quality mapping at the default quality 90. -/
theorem c4_quality_mapping_witness :
    qualityFraction 90 = (90 : ℚ) / 100 ∧
    qualityFraction 1 = 1 / 100 ∧
    qualityFraction 100 = 1 ∧
    (∀ a b : Nat, qualityFraction (a + b) = qualityFraction a + qualityFraction b) ∧
    1 / 100 ≤ qualityFraction 90 ∧ qualityFraction 90 ≤ 1 :=
  c4_quality_mapping 90 (by decide) (by decide)

/-- C5: conversion is a deterministic function of the source image and the
settings, so invoking it twice in sequence with no intervening state change
leaves the same converted-image bytes as invoking it once. -/
theorem c5_convert_idempotent (env : Env) (s : AppState) :
    (convertImage env (convertImage env s).final).final.convertedImage
      = (convertImage env s).final.convertedImage := by
  rcases hsrc : s.selectedImage with _ | src
  · simp [convertImage, hsrc]
  · rcases hdec : env.decodeImage src with _ | img
    · simp [convertImage, hsrc, hdec]
    · rcases hctx : env.getContext2d img.width img.height with _ | u
      · simp [convertImage, hsrc, hdec, hctx]
      · simp [convertImage, hsrc, hdec, hctx]

/-- C7: when the source is present, decoding succeeds, but the 2d drawing
context cannot be acquired, the conversion resolves, clears the busy flag,
and leaves the converted image unchanged. -/
theorem c7_context_failure (env : Env) (s : AppState) (src : String)
    (img : Bitmap) (hsrc : s.selectedImage = some src)
    (hdec : env.decodeImage src = some img)
    (hctx : env.getContext2d img.width img.height = none) :
    (convertImage env s).resolved = true ∧
    (convertImage env s).final.isLoading = false ∧
    (convertImage env s).final.convertedImage = s.convertedImage := by
  simp [convertImage, hsrc, hdec, hctx]

/-- C7 witness: the context-failure theorem instantiated with the
environment whose context acquisition always fails. -/
theorem c7_context_failure_witness :
    (convertImage noContextEnv stateWithSource).resolved = true ∧
    (convertImage noContextEnv stateWithSource).final.isLoading = false ∧
    (convertImage noContextEnv stateWithSource).final.convertedImage
      = stateWithSource.convertedImage :=
  c7_context_failure noContextEnv stateWithSource "data:image/webp;base64,AAAA"
    { width := 1, height := 1, pixels := [0] } rfl rfl rfl

/-- C8: invoking export when no converted image is present leaves the state
unchanged and initiates no download. -/
theorem c8_download_no_converted (s : AppState)
    (h : s.convertedImage = none) :
    downloadImage s = (s, none) := by
  simp [downloadImage, h]

/-- C8 witness: export in the initial state. -/
theorem c8_download_no_converted_witness :
    downloadImage initialState = (initialState, none) :=
  c8_download_no_converted initialState rfl

/-- C1 counterexample: convert with format `jpeg` (the converted image is
tagged `image/jpeg` at encode time), then select `png`, then export.  The
downloaded filename is `converted-image.png` — the format selected at export
time — and not `converted-image.jpeg`, the format the converted image was
tagged with at encode time, refuting the claim as stated. -/
theorem c1_filename_counterexample :
    stateWithSource.selectedFormat = ImageFormat.jpeg ∧
    (convertImage testEnv stateWithSource).final.convertedImage
      = some "data:image/jpeg;base64,PAYLOAD" ∧
    (downloadImage (setSelectedFormat ImageFormat.png
        (convertImage testEnv stateWithSource).final)).2
      = some { href := "data:image/jpeg;base64,PAYLOAD"
               filename := "converted-image.png" } ∧
    "converted-image.png" ≠ "converted-image." ++ formatToken ImageFormat.jpeg := by
  refine ⟨rfl, rfl, rfl, by decide⟩

/-- C1 (amended): the downloaded filename is `converted-image.F` where `F`
is the format selected at export time; conversion itself never changes the
selected format, so when export follows a successful conversion with no
intervening format change the filename extension coincides with the
encode-time format. -/
theorem c1_filename_from_export_format (env : Env) (s : AppState)
    (src : String) (img : Bitmap) (hsrc : s.selectedImage = some src)
    (hdec : env.decodeImage src = some img)
    (hctx : env.getContext2d img.width img.height = some ()) :
    ((downloadImage (convertImage env s).final).2).map Download.filename
      = some ("converted-image." ++ formatToken s.selectedFormat) ∧
    (convertImage env s).final.selectedFormat = s.selectedFormat ∧
    ∀ t : AppState, ∀ u : String, t.convertedImage = some u →
      ((downloadImage t).2).map Download.filename
        = some ("converted-image." ++ formatToken t.selectedFormat) := by
  refine ⟨?_, ?_, ?_⟩
  · simp [convertImage, hsrc, hdec, hctx, downloadImage]
  · simp [convertImage, hsrc, hdec, hctx]
  · intro t u hu
    simp [downloadImage, hu]

/-- C1 (amended) witness: the filename theorem instantiated in the test
environment at a state with a source image and the default settings. -/
theorem c1_filename_from_export_format_witness :
    ((downloadImage (convertImage testEnv stateWithSource).final).2).map
        Download.filename
      = some ("converted-image." ++ formatToken stateWithSource.selectedFormat) ∧
    (convertImage testEnv stateWithSource).final.selectedFormat
      = stateWithSource.selectedFormat ∧
    ∀ t : AppState, ∀ u : String, t.convertedImage = some u →
      ((downloadImage t).2).map Download.filename
        = some ("converted-image." ++ formatToken t.selectedFormat) :=
  c1_filename_from_export_format testEnv stateWithSource
    "data:image/webp;base64,AAAA" { width := 1, height := 1, pixels := [0] }
    rfl rfl rfl

/-- C10: export never changes any component state field, whether or not a
converted image is present. -/
theorem c10_download_frame (s : AppState) :
    (downloadImage s).1 = s := by
  rcases h : s.convertedImage with _ | url <;> simp [downloadImage, h]

end WebpConverter
